import Mathlib

/-!
Shallow embedding of `files.go` from the go-dropbox repository (package
`dropbox`).  The file defines a `Files` facade with one method per remote
endpoint.  Each method delegates to an external transport primitive
(`Client.call` for JSON-in/JSON-out endpoints, `Client.download` for
endpoints with a streaming request or response body), decodes the JSON
response body with `encoding/json`, and closes the body stream before
returning (via `defer body.Close()`), except `Download`, which hands the
open stream to the caller.

Modelling choices:
* Go errors are modelled as `Err := String`; transport errors are
  universally quantified opaque values.
* A response/request body stream is a `ByteStream`: an identifier plus the
  JSON value the stream yields (`none` models a body that is not valid
  JSON, on which `json.Decoder.Decode` fails before touching the
  destination).
* The external transport is a function parameter of each operation.
  Each operation returns an `OpResult` recording, besides the returned
  output pointer and error, the observable effects: the exact requests
  issued to the transport (in order), the stream identifiers closed
  before returning, and the final state of the caller-supplied input
  record (Go passes the input by pointer, so mutation is observable).
* Go `uint64` is modelled as `Nat`; decoding enforces the `2^64` bound.
* Go `time.Time` is modelled as `GoTime`, the RFC 3339 string it
  marshals to; its zero value marshals to "0001-01-01T00:00:00Z".
-/

/-- Go `error` values, modelled opaquely as strings. -/
abbrev Err := String

/-- Model of Go `time.Time` as the RFC 3339 string it marshals to.
`time.Time.MarshalJSON` emits the RFC 3339 rendering; `UnmarshalJSON`
ignores JSON `null` and accepts a JSON string (the model stores the
string verbatim; no claim exercises RFC 3339 validity checking). -/
structure GoTime where
  rfc3339 : String
deriving DecidableEq, Repr

/-- The zero `time.Time` marshals to this RFC 3339 string. -/
def GoTime.zero : GoTime := ⟨"0001-01-01T00:00:00Z"⟩

/-- JSON values (numbers restricted to integers; all wire fields of this
client are strings, booleans, unsigned integers, objects or arrays). -/
inductive Json where
  | null : Json
  | bool (b : Bool) : Json
  | num (n : Int) : Json
  | str (s : String) : Json
  | arr (elems : List Json) : Json
  | obj (fields : List (String × Json)) : Json

/-- Keys of a JSON object, in order (used to state which keys a
serialized record contains). -/
def jsonObjKeys : Json → List String
  | Json.obj fields => fields.map Prod.fst
  | _ => []

/-- A byte stream (`io.ReadCloser`): an identity plus the JSON value the
body yields; `content = none` models a body that is not valid JSON. -/
structure ByteStream where
  id : Nat
  content : Option Json

/-! ## Data model, translated from `files.go` -/

/-- `WriteMode` determines what to do if the file already exists
(Go: `type WriteMode string`). -/
abbrev WriteMode := String

def WriteModeAdd : WriteMode := "add"

def WriteModeOverwrite : WriteMode := "overwrite"

/-- Metadata for a file or folder.  Wire keys (json struct tags):
`.tag`, `name`, `path_lower`, `client_modified`, `server_modified`,
`rev`, `size`, `id`. -/
structure Metadata where
  Tag : String
  Name : String
  PathLower : String
  ClientModified : GoTime
  ServerModified : GoTime
  Rev : String
  Size : Nat
  ID : String
deriving DecidableEq, Repr

/-- The Go zero value of `Metadata` (what `json.Unmarshal` allocates
before filling fields). -/
def Metadata.zero : Metadata :=
  ⟨"", "", "", GoTime.zero, GoTime.zero, "", 0, ""⟩

/-- GetMetadataInput request input (tags `path`, `include_media_info`). -/
structure GetMetadataInput where
  Path : String
  IncludeMediaInfo : Bool
deriving DecidableEq, Repr

/-- GetMetadataOutput request output (embeds `Metadata`; the embedded
fields' wire keys are promoted). -/
structure GetMetadataOutput extends Metadata
deriving DecidableEq, Repr

/-- CreateFolderInput request input (tag `path`). -/
structure CreateFolderInput where
  Path : String
deriving DecidableEq, Repr

/-- CreateFolderOutput request output (tags `name`, `path_lower`, `id`). -/
structure CreateFolderOutput where
  Name : String
  PathLower : String
  ID : String
deriving DecidableEq, Repr

/-- The Go zero value of `CreateFolderOutput`. -/
def CreateFolderOutput.zero : CreateFolderOutput := ⟨"", "", ""⟩

/-- DeleteInput request input (tag `path`). -/
structure DeleteInput where
  Path : String
deriving DecidableEq, Repr

/-- DeleteOutput request output (embeds `Metadata`). -/
structure DeleteOutput extends Metadata
deriving DecidableEq, Repr

/-- CopyInput request input (tags `from_path`, `to_path`). -/
structure CopyInput where
  FromPath : String
  ToPath : String
deriving DecidableEq, Repr

/-- CopyOutput request output (embeds `Metadata`). -/
structure CopyOutput extends Metadata
deriving DecidableEq, Repr

/-- MoveInput request input (tags `from_path`, `to_path`). -/
structure MoveInput where
  FromPath : String
  ToPath : String
deriving DecidableEq, Repr

/-- MoveOutput request output (embeds `Metadata`). -/
structure MoveOutput extends Metadata
deriving DecidableEq, Repr

/-- RestoreInput request input (tags `path`, `rev`). -/
structure RestoreInput where
  Path : String
  Rev : String
deriving DecidableEq, Repr

/-- RestoreOutput request output (embeds `Metadata`). -/
structure RestoreOutput extends Metadata
deriving DecidableEq, Repr

/-- ListFolderInput request input (tags `path`, `recursive`,
`include_media_info`, `include_deleted`). -/
structure ListFolderInput where
  Path : String
  Recursive : Bool
  IncludeMediaInfo : Bool
  IncludeDeleted : Bool
deriving DecidableEq, Repr

/-- ListFolderOutput request output.  `Cursor` and `HasMore` carry tags
`cursor` and `has_more`; the `Entries []*Metadata` field carries NO json
tag in the source, so its JSON key is the Go field name `Entries`
(element pointers are modelled as `Option Metadata`: `none` is a nil
pointer). -/
structure ListFolderOutput where
  Cursor : String
  HasMore : Bool
  Entries : List (Option Metadata)
deriving DecidableEq, Repr

/-- The Go zero value of `ListFolderOutput`. -/
def ListFolderOutput.zero : ListFolderOutput := ⟨"", false, []⟩

/-- `SearchMode` determines how a search is performed
(Go: `type SearchMode string`). -/
abbrev SearchMode := String

def SearchModeFilename : SearchMode := "filename"

def SearchModeFilenameAndContent : SearchMode := "filename_and_content"

def SearchModeDeletedFilename : SearchMode := "deleted_filename"

/-- `SearchMatchType` represents the type of match made
(Go: `type SearchMatchType string`). -/
abbrev SearchMatchType := String

def SearchMatchFilename : SearchMatchType := "filename"

def SearchMatchContent : SearchMatchType := "content"

def SearchMatchBoth : SearchMatchType := "both"

/-- The anonymous struct of `SearchMatch.MatchType` (one field `Tag`
with wire key `.tag`). -/
structure SearchMatchTypeTag where
  Tag : SearchMatchType
deriving DecidableEq, Repr

/-- SearchMatch represents a matched file or folder (tags `match_type`,
`metadata`; `Metadata *Metadata` is modelled as `Option Metadata`). -/
structure SearchMatch where
  MatchType : SearchMatchTypeTag
  Metadata : Option Metadata
deriving DecidableEq, Repr

/-- The Go zero value of `SearchMatch`. -/
def SearchMatch.zero : SearchMatch := ⟨⟨""⟩, none⟩

/-- SearchInput request input (tags `path`, `query`, `start,omitempty`,
`max_results,omitempty`, `mode`). -/
structure SearchInput where
  Path : String
  Query : String
  Start : Nat
  MaxResults : Nat
  Mode : SearchMode
deriving DecidableEq, Repr

/-- SearchOutput request output (tags `matches`, `more`, `start`). -/
structure SearchOutput where
  Matches : List (Option SearchMatch)
  More : Bool
  Start : Nat
deriving DecidableEq, Repr

/-- The Go zero value of `SearchOutput`. -/
def SearchOutput.zero : SearchOutput := ⟨[], false, 0⟩

/-- UploadInput request input (tags `path`, `mode`, `autorename`,
`mute`, `client_modified,omitempty`; the `Reader io.Reader` field is
tagged `json:"-"` and is modelled as an optional stream, `none` being a
nil reader). -/
structure UploadInput where
  Path : String
  Mode : WriteMode
  AutoRename : Bool
  Mute : Bool
  ClientModified : GoTime
  Reader : Option ByteStream

/-- UploadOutput request output (embeds `Metadata`). -/
structure UploadOutput extends Metadata
deriving DecidableEq, Repr

/-- DownloadInput request input (tag `path`). -/
structure DownloadInput where
  Path : String
deriving DecidableEq, Repr

/-- DownloadOutput request output: the open response body stream
(`Body io.ReadCloser`). -/
structure DownloadOutput where
  Body : ByteStream

/-! ## Model of `encoding/json` decoding

Translated from the documented semantics of Go `json.Unmarshal` /
`json.Decoder.Decode` applied to the struct tags in `files.go`:

* object keys are matched to struct fields by tag, preferring an exact
  match but also accepting a case-insensitive match;
* a value of the wrong type for a field produces an
  `UnmarshalTypeError`; the decoder saves the FIRST such error, skips
  that field and completes the unmarshalling as best it can, so fields
  around the error stay populated;
* JSON `null` into a pointer or slice sets it to nil; `null` into a
  string, bool, integer, struct or `time.Time` is a no-op;
* unmarshalling into a nil pointer allocates the zero value first, even
  when the incoming value then turns out to have the wrong type;
* a body that is not valid JSON makes `Decode` fail before touching the
  destination.
-/

/-- ASCII lower-casing of one character (the fold `encoding/json` uses
for key matching only folds ASCII letters). -/
def asciiLower (c : Char) : Char :=
  if 'A' ≤ c ∧ c ≤ 'Z' then Char.ofNat (c.toNat + 32) else c

/-- Go matches JSON object keys to struct field tags preferring an exact
match but also accepting a case-insensitive match (ASCII fold). -/
def keyMatch (k fieldKey : String) : Bool :=
  k.data.map asciiLower == fieldKey.data.map asciiLower

/-- Decode a JSON value into a `string` field: strings are stored, null
is a no-op, anything else is an `UnmarshalTypeError`. -/
def setStr : Json → String → String × Option Err
  | Json.str s, _ => (s, none)
  | Json.null, cur => (cur, none)
  | _, cur => (cur, some "json: cannot unmarshal value into Go field of type string")

/-- Decode a JSON value into a `bool` field. -/
def setBool : Json → Bool → Bool × Option Err
  | Json.bool b, _ => (b, none)
  | Json.null, cur => (cur, none)
  | _, cur => (cur, some "json: cannot unmarshal value into Go field of type bool")

/-- Decode a JSON value into a `uint64` field: non-negative integers
below `2^64` are stored; negative or overflowing numbers, and values of
another type, are an `UnmarshalTypeError`. -/
def setUint64 : Json → Nat → Nat × Option Err
  | Json.num n, cur =>
      if 0 ≤ n ∧ n < (2 : Int) ^ 64 then (n.toNat, none)
      else (cur, some "json: cannot unmarshal number into Go field of type uint64")
  | Json.null, cur => (cur, none)
  | _, cur => (cur, some "json: cannot unmarshal value into Go field of type uint64")

/-- Decode a JSON value into a `time.Time` field (`time.Time` implements
`json.Unmarshaler`: null is ignored, a string is parsed as RFC 3339, any
other type is an error; the model stores the string verbatim). -/
def setTime : Json → GoTime → GoTime × Option Err
  | Json.str s, _ => (⟨s⟩, none)
  | Json.null, cur => (cur, none)
  | _, cur => (cur, some "json: cannot unmarshal value into Go field of type time.Time")

/-- Decode one JSON object member into a `Metadata` destination
(unknown keys are ignored). -/
def decMetadataField (m : Metadata) (k : String) (v : Json) : Metadata × Option Err :=
  if keyMatch k ".tag" then
    let r := setStr v m.Tag; ({ m with Tag := r.1 }, r.2)
  else if keyMatch k "name" then
    let r := setStr v m.Name; ({ m with Name := r.1 }, r.2)
  else if keyMatch k "path_lower" then
    let r := setStr v m.PathLower; ({ m with PathLower := r.1 }, r.2)
  else if keyMatch k "client_modified" then
    let r := setTime v m.ClientModified; ({ m with ClientModified := r.1 }, r.2)
  else if keyMatch k "server_modified" then
    let r := setTime v m.ServerModified; ({ m with ServerModified := r.1 }, r.2)
  else if keyMatch k "rev" then
    let r := setStr v m.Rev; ({ m with Rev := r.1 }, r.2)
  else if keyMatch k "size" then
    let r := setUint64 v m.Size; ({ m with Size := r.1 }, r.2)
  else if keyMatch k "id" then
    let r := setStr v m.ID; ({ m with ID := r.1 }, r.2)
  else (m, none)

/-- Decode a JSON object's members into a `Metadata`, keeping the first
error and continuing (Go saves the earliest `UnmarshalTypeError`). -/
def decMetadataFields (fs : List (String × Json)) : Metadata × Option Err :=
  fs.foldl
    (fun acc kv =>
      let r := decMetadataField acc.1 kv.1 kv.2
      (r.1, acc.2 <|> r.2))
    (Metadata.zero, none)

/-- Decode a JSON value into a `*Metadata`: null yields a nil pointer;
an object allocates and fills; any other value still allocates the zero
value (Go allocates through pointers before type-checking) and records
an `UnmarshalTypeError`. -/
def decMetadataPtr : Json → Option Metadata × Option Err
  | Json.null => (none, none)
  | Json.obj fs =>
      let r := decMetadataFields fs
      (some r.1, r.2)
  | _ => (some Metadata.zero,
          some "json: cannot unmarshal value into Go value of type dropbox.Metadata")

/-- Decode a JSON value into a `[]*Metadata` slice: null yields a nil
slice, an array decodes element-wise (first error saved, decoding
continues), any other value is an `UnmarshalTypeError`. -/
def setMetadataSlice : Json → List (Option Metadata) →
    List (Option Metadata) × Option Err
  | Json.null, _ => ([], none)
  | Json.arr xs, _ =>
      xs.foldl
        (fun acc x =>
          let r := decMetadataPtr x
          (acc.1 ++ [r.1], acc.2 <|> r.2))
        ([], none)
  | _, cur => (cur, some "json: cannot unmarshal value into Go field of type []*dropbox.Metadata")

/-- Decode one JSON object member into a `CreateFolderOutput`. -/
def decCreateFolderField (o : CreateFolderOutput) (k : String) (v : Json) :
    CreateFolderOutput × Option Err :=
  if keyMatch k "name" then
    let r := setStr v o.Name; ({ o with Name := r.1 }, r.2)
  else if keyMatch k "path_lower" then
    let r := setStr v o.PathLower; ({ o with PathLower := r.1 }, r.2)
  else if keyMatch k "id" then
    let r := setStr v o.ID; ({ o with ID := r.1 }, r.2)
  else (o, none)

/-- Decode a JSON object's members into a `CreateFolderOutput`. -/
def decCreateFolderFields (fs : List (String × Json)) :
    CreateFolderOutput × Option Err :=
  fs.foldl
    (fun acc kv =>
      let r := decCreateFolderField acc.1 kv.1 kv.2
      (r.1, acc.2 <|> r.2))
    (CreateFolderOutput.zero, none)

/-- Decode one JSON object member into a `ListFolderOutput`.  `Cursor`
and `HasMore` match their tags `cursor` and `has_more`; `Entries` has no
tag, so its JSON key is the field name `Entries`, which the wire key
`entries` still matches case-insensitively. -/
def decListFolderField (o : ListFolderOutput) (k : String) (v : Json) :
    ListFolderOutput × Option Err :=
  if keyMatch k "cursor" then
    let r := setStr v o.Cursor; ({ o with Cursor := r.1 }, r.2)
  else if keyMatch k "has_more" then
    let r := setBool v o.HasMore; ({ o with HasMore := r.1 }, r.2)
  else if keyMatch k "Entries" then
    let r := setMetadataSlice v o.Entries; ({ o with Entries := r.1 }, r.2)
  else (o, none)

/-- Decode a JSON object's members into a `ListFolderOutput`. -/
def decListFolderFields (fs : List (String × Json)) :
    ListFolderOutput × Option Err :=
  fs.foldl
    (fun acc kv =>
      let r := decListFolderField acc.1 kv.1 kv.2
      (r.1, acc.2 <|> r.2))
    (ListFolderOutput.zero, none)

/-- Decode a JSON value into the anonymous `struct Tag SearchMatchType`
of `SearchMatch.MatchType` (null into a struct is a no-op). -/
def setMatchTypeStruct : Json → SearchMatchTypeTag →
    SearchMatchTypeTag × Option Err
  | Json.null, cur => (cur, none)
  | Json.obj fs, cur =>
      fs.foldl
        (fun acc kv =>
          if keyMatch kv.1 ".tag" then
            let r := setStr kv.2 acc.1.Tag
            (⟨r.1⟩, acc.2 <|> r.2)
          else acc)
        (cur, none)
  | _, cur => (cur, some "json: cannot unmarshal value into Go field of type struct")

/-- Decode one JSON object member into a `SearchMatch`. -/
def decSearchMatchField (m : SearchMatch) (k : String) (v : Json) :
    SearchMatch × Option Err :=
  if keyMatch k "match_type" then
    let r := setMatchTypeStruct v m.MatchType; ({ m with MatchType := r.1 }, r.2)
  else if keyMatch k "metadata" then
    let r := decMetadataPtr v; ({ m with Metadata := r.1 }, r.2)
  else (m, none)

/-- Decode a JSON value into a `*SearchMatch`. -/
def decSearchMatchPtr : Json → Option SearchMatch × Option Err
  | Json.null => (none, none)
  | Json.obj fs =>
      let r := fs.foldl
        (fun acc kv =>
          let r := decSearchMatchField acc.1 kv.1 kv.2
          (r.1, acc.2 <|> r.2))
        (SearchMatch.zero, none)
      (some r.1, r.2)
  | _ => (some SearchMatch.zero,
          some "json: cannot unmarshal value into Go value of type dropbox.SearchMatch")

/-- Decode a JSON value into a `[]*SearchMatch` slice. -/
def setSearchMatchSlice : Json → List (Option SearchMatch) →
    List (Option SearchMatch) × Option Err
  | Json.null, _ => ([], none)
  | Json.arr xs, _ =>
      xs.foldl
        (fun acc x =>
          let r := decSearchMatchPtr x
          (acc.1 ++ [r.1], acc.2 <|> r.2))
        ([], none)
  | _, cur => (cur, some "json: cannot unmarshal value into Go field of type []*dropbox.SearchMatch")

/-- Decode one JSON object member into a `SearchOutput`. -/
def decSearchOutputField (o : SearchOutput) (k : String) (v : Json) :
    SearchOutput × Option Err :=
  if keyMatch k "matches" then
    let r := setSearchMatchSlice v o.Matches; ({ o with Matches := r.1 }, r.2)
  else if keyMatch k "more" then
    let r := setBool v o.More; ({ o with More := r.1 }, r.2)
  else if keyMatch k "start" then
    let r := setUint64 v o.Start; ({ o with Start := r.1 }, r.2)
  else (o, none)

/-- Decode a JSON object's members into a `SearchOutput`. -/
def decSearchOutputFields (fs : List (String × Json)) :
    SearchOutput × Option Err :=
  fs.foldl
    (fun acc kv =>
      let r := decSearchOutputField acc.1 kv.1 kv.2
      (r.1, acc.2 <|> r.2))
    (SearchOutput.zero, none)

/-- Model of `json.NewDecoder(body).Decode(&out)` where `out` is a nil
pointer `*ω`: an invalid body fails before touching `out`; JSON `null`
sets `out` to nil without error; an object allocates the zero value and
decodes into it; any other top-level value still allocates the zero
value (pointers are allocated before the type check) and fails with an
`UnmarshalTypeError`. -/
def decodeBody {ω : Type} (zero : ω)
    (decObj : List (String × Json) → ω × Option Err) :
    Option Json → Option ω × Option Err
  | none => (none, some "invalid character in JSON input")
  | some Json.null => (none, none)
  | some (Json.obj fs) =>
      let r := decObj fs
      (some r.1, r.2)
  | some _ => (some zero,
               some "json: cannot unmarshal value into Go output struct")

/-- Decoder for `GetMetadataOutput` (embeds `Metadata`, so the embedded
fields' wire keys are promoted to the top level). -/
def decGetMetadataOutput : Option Json → Option GetMetadataOutput × Option Err :=
  decodeBody ⟨Metadata.zero⟩ (fun fs => let r := decMetadataFields fs; (⟨r.1⟩, r.2))

/-- Decoder for `CreateFolderOutput`. -/
def decCreateFolderOutput : Option Json → Option CreateFolderOutput × Option Err :=
  decodeBody CreateFolderOutput.zero decCreateFolderFields

/-- Decoder for `DeleteOutput` (embeds `Metadata`). -/
def decDeleteOutput : Option Json → Option DeleteOutput × Option Err :=
  decodeBody ⟨Metadata.zero⟩ (fun fs => let r := decMetadataFields fs; (⟨r.1⟩, r.2))

/-- Decoder for `CopyOutput` (embeds `Metadata`). -/
def decCopyOutput : Option Json → Option CopyOutput × Option Err :=
  decodeBody ⟨Metadata.zero⟩ (fun fs => let r := decMetadataFields fs; (⟨r.1⟩, r.2))

/-- Decoder for `MoveOutput` (embeds `Metadata`). -/
def decMoveOutput : Option Json → Option MoveOutput × Option Err :=
  decodeBody ⟨Metadata.zero⟩ (fun fs => let r := decMetadataFields fs; (⟨r.1⟩, r.2))

/-- Decoder for `RestoreOutput` (embeds `Metadata`). -/
def decRestoreOutput : Option Json → Option RestoreOutput × Option Err :=
  decodeBody ⟨Metadata.zero⟩ (fun fs => let r := decMetadataFields fs; (⟨r.1⟩, r.2))

/-- Decoder for `ListFolderOutput`. -/
def decListFolderOutput : Option Json → Option ListFolderOutput × Option Err :=
  decodeBody ListFolderOutput.zero decListFolderFields

/-- Decoder for `SearchOutput`. -/
def decSearchOutput : Option Json → Option SearchOutput × Option Err :=
  decodeBody SearchOutput.zero decSearchOutputFields

/-- Decoder for `UploadOutput` (embeds `Metadata`). -/
def decUploadOutput : Option Json → Option UploadOutput × Option Err :=
  decodeBody ⟨Metadata.zero⟩ (fun fs => let r := decMetadataFields fs; (⟨r.1⟩, r.2))

/-! ## Model of `encoding/json` marshalling of `UploadInput`

The transport serializes the input record using its struct tags.
`Path`, `Mode`, `AutoRename`, `Mute` are always emitted under their
tags.  `ClientModified` is tagged `client_modified,omitempty`, but Go's
`omitempty` omits only false, 0, a nil pointer/interface, and an empty
array, slice, map or string; a struct such as `time.Time` is NEVER
considered empty, so `client_modified` is emitted even for the zero
time (as its RFC 3339 rendering "0001-01-01T00:00:00Z").  `Reader` is
tagged `json:"-"` and is never marshalled. -/
def marshalUploadInput (u : UploadInput) : Json :=
  Json.obj
    [("path", Json.str u.Path),
     ("mode", Json.str u.Mode),
     ("autorename", Json.bool u.AutoRename),
     ("mute", Json.bool u.Mute),
     ("client_modified", Json.str u.ClientModified.rfc3339)]

/-! ## Wire-key tables

For each record, the list of (Go field name, JSON key) pairs induced by
the struct tags in `files.go`.  A field without a tag gets the Go field
name itself as its JSON key (`encoding/json` default); this is the case
for `ListFolderOutput.Entries` only.  `UploadInput.Reader` is tagged
`json:"-"` and has no JSON key at all, so it does not appear. -/

def metadataJsonKeys : List (String × String) :=
  [("Tag", ".tag"), ("Name", "name"), ("PathLower", "path_lower"),
   ("ClientModified", "client_modified"), ("ServerModified", "server_modified"),
   ("Rev", "rev"), ("Size", "size"), ("ID", "id")]

def getMetadataInputJsonKeys : List (String × String) :=
  [("Path", "path"), ("IncludeMediaInfo", "include_media_info")]

def createFolderInputJsonKeys : List (String × String) :=
  [("Path", "path")]

def createFolderOutputJsonKeys : List (String × String) :=
  [("Name", "name"), ("PathLower", "path_lower"), ("ID", "id")]

def deleteInputJsonKeys : List (String × String) :=
  [("Path", "path")]

def copyInputJsonKeys : List (String × String) :=
  [("FromPath", "from_path"), ("ToPath", "to_path")]

def moveInputJsonKeys : List (String × String) :=
  [("FromPath", "from_path"), ("ToPath", "to_path")]

def restoreInputJsonKeys : List (String × String) :=
  [("Path", "path"), ("Rev", "rev")]

def listFolderInputJsonKeys : List (String × String) :=
  [("Path", "path"), ("Recursive", "recursive"),
   ("IncludeMediaInfo", "include_media_info"), ("IncludeDeleted", "include_deleted")]

def listFolderOutputJsonKeys : List (String × String) :=
  [("Cursor", "cursor"), ("HasMore", "has_more"), ("Entries", "Entries")]

def searchMatchJsonKeys : List (String × String) :=
  [("MatchType", "match_type"), ("Metadata", "metadata")]

def searchMatchTypeTagJsonKeys : List (String × String) :=
  [("Tag", ".tag")]

def searchInputJsonKeys : List (String × String) :=
  [("Path", "path"), ("Query", "query"), ("Start", "start"),
   ("MaxResults", "max_results"), ("Mode", "mode")]

def searchOutputJsonKeys : List (String × String) :=
  [("Matches", "matches"), ("More", "more"), ("Start", "start")]

def uploadInputJsonKeys : List (String × String) :=
  [("Path", "path"), ("Mode", "mode"), ("AutoRename", "autorename"),
   ("Mute", "mute"), ("ClientModified", "client_modified")]

def downloadInputJsonKeys : List (String × String) :=
  [("Path", "path")]

/-- All wire-key tables of the client's records, by record name. -/
def allJsonKeys : List (String × List (String × String)) :=
  [("Metadata", metadataJsonKeys),
   ("GetMetadataInput", getMetadataInputJsonKeys),
   ("CreateFolderInput", createFolderInputJsonKeys),
   ("CreateFolderOutput", createFolderOutputJsonKeys),
   ("DeleteInput", deleteInputJsonKeys),
   ("CopyInput", copyInputJsonKeys),
   ("MoveInput", moveInputJsonKeys),
   ("RestoreInput", restoreInputJsonKeys),
   ("ListFolderInput", listFolderInputJsonKeys),
   ("ListFolderOutput", listFolderOutputJsonKeys),
   ("SearchMatch", searchMatchJsonKeys),
   ("SearchMatchTypeTag", searchMatchTypeTagJsonKeys),
   ("SearchInput", searchInputJsonKeys),
   ("SearchOutput", searchOutputJsonKeys),
   ("UploadInput", uploadInputJsonKeys),
   ("DownloadInput", downloadInputJsonKeys)]

/-- A fixed snake_case wire key: non-empty, only lowercase letters,
digits, underscores and dots (the discriminator key is `.tag`). -/
def isSnakeCaseKey (s : String) : Bool :=
  !s.data.isEmpty &&
    s.data.all (fun c => ('a' ≤ c && c ≤ 'z') || c.isDigit || c == '_' || c == '.')

/-! ## The `Files` facade operations

Each Go method has the shape

  body, err := c.call(endpoint, in)   -- or c.download(endpoint, in, rdr)
  if err != nil return                -- named results: (nil, err)
  defer body.Close()
  err = json.NewDecoder(body).Decode(&out)
  return                              -- (out, err); body closed by defer

The model takes the transport primitive as a function argument and
returns an `OpResult` recording the requests issued, the returned
output pointer and error, the streams closed before returning, and the
final state of the caller's input record (Go passes `in` by pointer). -/

/-- A request issued through `Client.call` (JSON-RPC style endpoints):
the fixed endpoint and the input record handed to the transport. -/
structure CallRequest (ι : Type) where
  endpoint : String
  arg : ι

/-- A request issued through `Client.download` (content endpoints): the
fixed endpoint, the input record handed to the transport as request
metadata, and the optional raw request body stream. -/
structure DownloadRequest (ι : Type) where
  endpoint : String
  arg : ι
  body : Option ByteStream

/-- Observable outcome of one facade operation: the transport requests
issued in order, the returned output pointer (`none` = nil) and error,
the identifiers of the streams closed before returning, and the final
state of the caller-supplied input record. -/
structure OpResult (ι ρ ω : Type) where
  requests : List ρ
  out : Option ω
  err : Option Err
  closed : List Nat
  finalInput : ι

namespace Files

/-- GetMetadata returns the metadata for a file or folder. -/
def GetMetadata (call : GetMetadataInput → Except Err ByteStream)
    (inp : GetMetadataInput) :
    OpResult GetMetadataInput (CallRequest GetMetadataInput) GetMetadataOutput :=
  match call inp with
  | Except.error e => ⟨[⟨"/files/get_metadata", inp⟩], none, some e, [], inp⟩
  | Except.ok body =>
      let r := decGetMetadataOutput body.content
      ⟨[⟨"/files/get_metadata", inp⟩], r.1, r.2, [body.id], inp⟩

/-- CreateFolder creates a folder. -/
def CreateFolder (call : CreateFolderInput → Except Err ByteStream)
    (inp : CreateFolderInput) :
    OpResult CreateFolderInput (CallRequest CreateFolderInput) CreateFolderOutput :=
  match call inp with
  | Except.error e => ⟨[⟨"/files/create_folder", inp⟩], none, some e, [], inp⟩
  | Except.ok body =>
      let r := decCreateFolderOutput body.content
      ⟨[⟨"/files/create_folder", inp⟩], r.1, r.2, [body.id], inp⟩

/-- Delete a file or folder and its contents. -/
def Delete (call : DeleteInput → Except Err ByteStream)
    (inp : DeleteInput) :
    OpResult DeleteInput (CallRequest DeleteInput) DeleteOutput :=
  match call inp with
  | Except.error e => ⟨[⟨"/files/delete", inp⟩], none, some e, [], inp⟩
  | Except.ok body =>
      let r := decDeleteOutput body.content
      ⟨[⟨"/files/delete", inp⟩], r.1, r.2, [body.id], inp⟩

/-- Copy a file or folder to a different location. -/
def Copy (call : CopyInput → Except Err ByteStream)
    (inp : CopyInput) :
    OpResult CopyInput (CallRequest CopyInput) CopyOutput :=
  match call inp with
  | Except.error e => ⟨[⟨"/files/copy", inp⟩], none, some e, [], inp⟩
  | Except.ok body =>
      let r := decCopyOutput body.content
      ⟨[⟨"/files/copy", inp⟩], r.1, r.2, [body.id], inp⟩

/-- Move a file or folder to a different location. -/
def Move (call : MoveInput → Except Err ByteStream)
    (inp : MoveInput) :
    OpResult MoveInput (CallRequest MoveInput) MoveOutput :=
  match call inp with
  | Except.error e => ⟨[⟨"/files/move", inp⟩], none, some e, [], inp⟩
  | Except.ok body =>
      let r := decMoveOutput body.content
      ⟨[⟨"/files/move", inp⟩], r.1, r.2, [body.id], inp⟩

/-- Restore a file to a specific revision. -/
def Restore (call : RestoreInput → Except Err ByteStream)
    (inp : RestoreInput) :
    OpResult RestoreInput (CallRequest RestoreInput) RestoreOutput :=
  match call inp with
  | Except.error e => ⟨[⟨"/files/restore", inp⟩], none, some e, [], inp⟩
  | Except.ok body =>
      let r := decRestoreOutput body.content
      ⟨[⟨"/files/restore", inp⟩], r.1, r.2, [body.id], inp⟩

/-- ListFolder returns the metadata for a file or folder. -/
def ListFolder (call : ListFolderInput → Except Err ByteStream)
    (inp : ListFolderInput) :
    OpResult ListFolderInput (CallRequest ListFolderInput) ListFolderOutput :=
  match call inp with
  | Except.error e => ⟨[⟨"/files/list_folder", inp⟩], none, some e, [], inp⟩
  | Except.ok body =>
      let r := decListFolderOutput body.content
      ⟨[⟨"/files/list_folder", inp⟩], r.1, r.2, [body.id], inp⟩

/-- Search for files and folders.  Go first default-fills the mode
through the input pointer: `if in.Mode == "" then in.Mode =
SearchModeFilename`; the mutated record is what the transport receives
and what the caller observes afterwards. -/
def Search (call : SearchInput → Except Err ByteStream)
    (inp : SearchInput) :
    OpResult SearchInput (CallRequest SearchInput) SearchOutput :=
  let inp2 := if inp.Mode = "" then { inp with Mode := SearchModeFilename } else inp
  match call inp2 with
  | Except.error e => ⟨[⟨"/files/search", inp2⟩], none, some e, [], inp2⟩
  | Except.ok body =>
      let r := decSearchOutput body.content
      ⟨[⟨"/files/search", inp2⟩], r.1, r.2, [body.id], inp2⟩

/-- Upload a file smaller than 150MB.  Go: `body, err :=
c.download("/files/upload", in, in.Reader)`, then decode and close as
in the JSON operations. -/
def Upload (download : UploadInput → Option ByteStream → Except Err ByteStream)
    (inp : UploadInput) :
    OpResult UploadInput (DownloadRequest UploadInput) UploadOutput :=
  match download inp inp.Reader with
  | Except.error e => ⟨[⟨"/files/upload", inp, inp.Reader⟩], none, some e, [], inp⟩
  | Except.ok body =>
      let r := decUploadOutput body.content
      ⟨[⟨"/files/upload", inp, inp.Reader⟩], r.1, r.2, [body.id], inp⟩

/-- Download a file.  Go: `body, err := c.download("/files/download",
in, nil)`; on success the open body is returned to the caller inside
`DownloadOutput` without being closed or read. -/
def Download (download : DownloadInput → Option ByteStream → Except Err ByteStream)
    (inp : DownloadInput) :
    OpResult DownloadInput (DownloadRequest DownloadInput) DownloadOutput :=
  match download inp none with
  | Except.error e => ⟨[⟨"/files/download", inp, none⟩], none, some e, [], inp⟩
  | Except.ok body =>
      ⟨[⟨"/files/download", inp, none⟩], some ⟨body⟩, none, [], inp⟩

end Files

/-! ## Claims -/

/-- C1: for every `SearchInput` whose `Mode` is the empty string,
`Search` behaves identically to `Search` on the same input with `Mode`
set to `SearchModeFilename`: the request handed to the transport, the
returned output and error (indeed the whole observable outcome,
including the final state of the input record) are equal. -/
theorem c1_search_empty_mode_equals_filename_mode
    (call : SearchInput → Except Err ByteStream) (inp : SearchInput) :
    Files.Search call { inp with Mode := "" } =
      Files.Search call { inp with Mode := SearchModeFilename } := by
  unfold Files.Search
  simp [SearchModeFilename]

/-- C2 counterexample: `Search` mutates the caller-supplied input
record.  Go receives `in *SearchInput` and executes `in.Mode =
SearchModeFilename` when the mode is empty, so after the call the
caller's record differs from what it supplied (its `Mode` is now
"filename").  Shown on the concrete input
`SearchInput{Path:"/", Query:"q", Start:0, MaxResults:0, Mode:""}` with
a transport that fails (the mutation happens before the transport is
even consulted). -/
theorem c2_counterexample_search_mutates_caller_input :
    (Files.Search (fun _ => Except.error "network down")
        ⟨"/", "q", 0, 0, ""⟩).finalInput ≠ ⟨"/", "q", 0, 0, ""⟩ := by
  decide

/-- C2 amended: no operation other than `Search` mutates the
caller-supplied input record; `Search` leaves the record unchanged when
its `Mode` is non-empty, and when `Mode` is empty it changes exactly
the `Mode` field, setting it to `SearchModeFilename` ("filename"). -/
theorem c2_amended_only_search_default_fill_mutates_input :
    (∀ (call : SearchInput → Except Err ByteStream) (inp : SearchInput),
        inp.Mode ≠ "" → (Files.Search call inp).finalInput = inp)
  ∧ (∀ (call : SearchInput → Except Err ByteStream) (inp : SearchInput),
        inp.Mode = "" →
        (Files.Search call inp).finalInput = { inp with Mode := SearchModeFilename })
  ∧ (∀ (call : GetMetadataInput → Except Err ByteStream) (inp : GetMetadataInput),
        (Files.GetMetadata call inp).finalInput = inp)
  ∧ (∀ (call : CreateFolderInput → Except Err ByteStream) (inp : CreateFolderInput),
        (Files.CreateFolder call inp).finalInput = inp)
  ∧ (∀ (call : DeleteInput → Except Err ByteStream) (inp : DeleteInput),
        (Files.Delete call inp).finalInput = inp)
  ∧ (∀ (call : CopyInput → Except Err ByteStream) (inp : CopyInput),
        (Files.Copy call inp).finalInput = inp)
  ∧ (∀ (call : MoveInput → Except Err ByteStream) (inp : MoveInput),
        (Files.Move call inp).finalInput = inp)
  ∧ (∀ (call : RestoreInput → Except Err ByteStream) (inp : RestoreInput),
        (Files.Restore call inp).finalInput = inp)
  ∧ (∀ (call : ListFolderInput → Except Err ByteStream) (inp : ListFolderInput),
        (Files.ListFolder call inp).finalInput = inp)
  ∧ (∀ (dl : UploadInput → Option ByteStream → Except Err ByteStream) (inp : UploadInput),
        (Files.Upload dl inp).finalInput = inp)
  ∧ (∀ (dl : DownloadInput → Option ByteStream → Except Err ByteStream) (inp : DownloadInput),
        (Files.Download dl inp).finalInput = inp) := by
  refine ⟨?_, ?_, ?_, ?_, ?_, ?_, ?_, ?_, ?_, ?_, ?_⟩
  · intro call inp h
    cases hc : call inp <;> simp [Files.Search, h, hc]
  · intro call inp h
    cases hc : call { inp with Mode := ("filename" : String) } <;>
      simp [Files.Search, h, SearchModeFilename, hc]
  · intro call inp
    cases hc : call inp <;> simp [Files.GetMetadata, hc]
  · intro call inp
    cases hc : call inp <;> simp [Files.CreateFolder, hc]
  · intro call inp
    cases hc : call inp <;> simp [Files.Delete, hc]
  · intro call inp
    cases hc : call inp <;> simp [Files.Copy, hc]
  · intro call inp
    cases hc : call inp <;> simp [Files.Move, hc]
  · intro call inp
    cases hc : call inp <;> simp [Files.Restore, hc]
  · intro call inp
    cases hc : call inp <;> simp [Files.ListFolder, hc]
  · intro dl inp
    cases hc : dl inp inp.Reader <;> simp [Files.Upload, hc]
  · intro dl inp
    cases hc : dl inp none <;> simp [Files.Download, hc]

/-- C2 amended, witnessed at concrete inputs: a `Search` with non-empty
mode keeps its input unchanged, and a `Search` with empty mode ends with
exactly the mode field default-filled. -/
theorem c2_amended_witness :
    (Files.Search (fun _ => Except.error "boom")
        ⟨"/w", "w", 1, 2, "deleted_filename"⟩).finalInput
      = ⟨"/w", "w", 1, 2, "deleted_filename"⟩
  ∧ (Files.Search (fun _ => Except.error "boom")
        ⟨"/w", "w", 1, 2, ""⟩).finalInput = ⟨"/w", "w", 1, 2, "filename"⟩ :=
  ⟨c2_amended_only_search_default_fill_mutates_input.1 _ _ (by decide),
   c2_amended_only_search_default_fill_mutates_input.2.1 _ _ (by decide)⟩

/-- C3: for every operation, when the transport primitive fails, the
operation returns that exact error value to the caller: the output is
nil, exactly one transport request was issued (no retry), and no stream
exists to decode or close (the error value is returned unmodified). -/
theorem c3_transport_error_returned_immediately_and_exactly :
    (∀ (call : GetMetadataInput → Except Err ByteStream) (inp : GetMetadataInput) (e : Err),
        (∀ x, call x = Except.error e) →
        (Files.GetMetadata call inp).err = some e ∧
        (Files.GetMetadata call inp).out = none ∧
        (Files.GetMetadata call inp).requests.length = 1 ∧
        (Files.GetMetadata call inp).closed = [])
  ∧ (∀ (call : CreateFolderInput → Except Err ByteStream) (inp : CreateFolderInput) (e : Err),
        (∀ x, call x = Except.error e) →
        (Files.CreateFolder call inp).err = some e ∧
        (Files.CreateFolder call inp).out = none ∧
        (Files.CreateFolder call inp).requests.length = 1 ∧
        (Files.CreateFolder call inp).closed = [])
  ∧ (∀ (call : DeleteInput → Except Err ByteStream) (inp : DeleteInput) (e : Err),
        (∀ x, call x = Except.error e) →
        (Files.Delete call inp).err = some e ∧
        (Files.Delete call inp).out = none ∧
        (Files.Delete call inp).requests.length = 1 ∧
        (Files.Delete call inp).closed = [])
  ∧ (∀ (call : CopyInput → Except Err ByteStream) (inp : CopyInput) (e : Err),
        (∀ x, call x = Except.error e) →
        (Files.Copy call inp).err = some e ∧
        (Files.Copy call inp).out = none ∧
        (Files.Copy call inp).requests.length = 1 ∧
        (Files.Copy call inp).closed = [])
  ∧ (∀ (call : MoveInput → Except Err ByteStream) (inp : MoveInput) (e : Err),
        (∀ x, call x = Except.error e) →
        (Files.Move call inp).err = some e ∧
        (Files.Move call inp).out = none ∧
        (Files.Move call inp).requests.length = 1 ∧
        (Files.Move call inp).closed = [])
  ∧ (∀ (call : RestoreInput → Except Err ByteStream) (inp : RestoreInput) (e : Err),
        (∀ x, call x = Except.error e) →
        (Files.Restore call inp).err = some e ∧
        (Files.Restore call inp).out = none ∧
        (Files.Restore call inp).requests.length = 1 ∧
        (Files.Restore call inp).closed = [])
  ∧ (∀ (call : ListFolderInput → Except Err ByteStream) (inp : ListFolderInput) (e : Err),
        (∀ x, call x = Except.error e) →
        (Files.ListFolder call inp).err = some e ∧
        (Files.ListFolder call inp).out = none ∧
        (Files.ListFolder call inp).requests.length = 1 ∧
        (Files.ListFolder call inp).closed = [])
  ∧ (∀ (call : SearchInput → Except Err ByteStream) (inp : SearchInput) (e : Err),
        (∀ x, call x = Except.error e) →
        (Files.Search call inp).err = some e ∧
        (Files.Search call inp).out = none ∧
        (Files.Search call inp).requests.length = 1 ∧
        (Files.Search call inp).closed = [])
  ∧ (∀ (dl : UploadInput → Option ByteStream → Except Err ByteStream)
        (inp : UploadInput) (e : Err),
        (∀ x b, dl x b = Except.error e) →
        (Files.Upload dl inp).err = some e ∧
        (Files.Upload dl inp).out = none ∧
        (Files.Upload dl inp).requests.length = 1 ∧
        (Files.Upload dl inp).closed = [])
  ∧ (∀ (dl : DownloadInput → Option ByteStream → Except Err ByteStream)
        (inp : DownloadInput) (e : Err),
        (∀ x b, dl x b = Except.error e) →
        (Files.Download dl inp).err = some e ∧
        (Files.Download dl inp).out = none ∧
        (Files.Download dl inp).requests.length = 1 ∧
        (Files.Download dl inp).closed = []) := by
  refine ⟨?_, ?_, ?_, ?_, ?_, ?_, ?_, ?_, ?_, ?_⟩ <;>
    intro call inp e h <;>
    simp [Files.GetMetadata, Files.CreateFolder, Files.Delete, Files.Copy,
      Files.Move, Files.Restore, Files.ListFolder, Files.Search,
      Files.Upload, Files.Download, h]

/-- C3 witnessed at concrete inputs: a transport that fails with
"timeout" makes `GetMetadata` and `Upload` return exactly that error. -/
theorem c3_witness :
    (Files.GetMetadata (fun _ => Except.error "timeout") ⟨"/a", false⟩).err
        = some "timeout"
  ∧ (Files.Upload (fun _ _ => Except.error "timeout")
        ⟨"/a", "add", false, false, GoTime.zero, none⟩).err = some "timeout" :=
  ⟨(c3_transport_error_returned_immediately_and_exactly.1 _ ⟨"/a", false⟩ "timeout"
      (fun _ => rfl)).1,
   ((c3_transport_error_returned_immediately_and_exactly.2.2.2.2.2.2.2.2.1)
      _ ⟨"/a", "add", false, false, GoTime.zero, none⟩ "timeout" (fun _ _ => rfl)).1⟩

/-- C4 counterexample: a decode error does NOT preclude a partial
result.  On the response body `{"name":"a","size":"x"}` the decoder
populates `Name` with "a", then hits the type error on `size`;
`encoding/json` saves the first `UnmarshalTypeError`, skips the field
and completes the unmarshalling, and the Go method returns the named
results `(out, err)` with BOTH set: a non-nil output whose `Name` field
is populated, alongside the error. -/
theorem c4_counterexample_partially_populated_output_returned :
    (Files.GetMetadata
        (fun _ => Except.ok ⟨7, some (Json.obj
          [("name", Json.str "a"), ("size", Json.str "x")])⟩)
        ⟨"/a", false⟩).err.isSome = true
  ∧ (Files.GetMetadata
        (fun _ => Except.ok ⟨7, some (Json.obj
          [("name", Json.str "a"), ("size", Json.str "x")])⟩)
        ⟨"/a", false⟩).out = some ⟨{ Metadata.zero with Name := "a" }⟩
  ∧ ((Files.GetMetadata
        (fun _ => Except.ok ⟨7, some (Json.obj
          [("name", Json.str "a"), ("size", Json.str "x")])⟩)
        ⟨"/a", false⟩).out.map fun o => o.Name) = some "a" := by
  refine ⟨?_, ?_, ?_⟩ <;> rfl

/-- C4 amended: for every JSON-decoded operation, when the transport
call succeeds and decoding the response body fails, the decode error is
surfaced verbatim to the caller; however the operation returns whatever
the decoder left in the output pointer, which can be a non-nil record
with the fields decoded around the error populated (no guarantee of "no
partial result" exists). -/
theorem c4_amended_decode_error_surfaced
    : (∀ (call : GetMetadataInput → Except Err ByteStream) (inp : GetMetadataInput)
        (body : ByteStream) (e : Err),
        (∀ x, call x = Except.ok body) →
        (decGetMetadataOutput body.content).2 = some e →
        (Files.GetMetadata call inp).err = some e ∧
        (Files.GetMetadata call inp).out = (decGetMetadataOutput body.content).1)
  ∧ (∀ (call : CreateFolderInput → Except Err ByteStream) (inp : CreateFolderInput)
        (body : ByteStream) (e : Err),
        (∀ x, call x = Except.ok body) →
        (decCreateFolderOutput body.content).2 = some e →
        (Files.CreateFolder call inp).err = some e ∧
        (Files.CreateFolder call inp).out = (decCreateFolderOutput body.content).1)
  ∧ (∀ (call : DeleteInput → Except Err ByteStream) (inp : DeleteInput)
        (body : ByteStream) (e : Err),
        (∀ x, call x = Except.ok body) →
        (decDeleteOutput body.content).2 = some e →
        (Files.Delete call inp).err = some e ∧
        (Files.Delete call inp).out = (decDeleteOutput body.content).1)
  ∧ (∀ (call : CopyInput → Except Err ByteStream) (inp : CopyInput)
        (body : ByteStream) (e : Err),
        (∀ x, call x = Except.ok body) →
        (decCopyOutput body.content).2 = some e →
        (Files.Copy call inp).err = some e ∧
        (Files.Copy call inp).out = (decCopyOutput body.content).1)
  ∧ (∀ (call : MoveInput → Except Err ByteStream) (inp : MoveInput)
        (body : ByteStream) (e : Err),
        (∀ x, call x = Except.ok body) →
        (decMoveOutput body.content).2 = some e →
        (Files.Move call inp).err = some e ∧
        (Files.Move call inp).out = (decMoveOutput body.content).1)
  ∧ (∀ (call : RestoreInput → Except Err ByteStream) (inp : RestoreInput)
        (body : ByteStream) (e : Err),
        (∀ x, call x = Except.ok body) →
        (decRestoreOutput body.content).2 = some e →
        (Files.Restore call inp).err = some e ∧
        (Files.Restore call inp).out = (decRestoreOutput body.content).1)
  ∧ (∀ (call : ListFolderInput → Except Err ByteStream) (inp : ListFolderInput)
        (body : ByteStream) (e : Err),
        (∀ x, call x = Except.ok body) →
        (decListFolderOutput body.content).2 = some e →
        (Files.ListFolder call inp).err = some e ∧
        (Files.ListFolder call inp).out = (decListFolderOutput body.content).1)
  ∧ (∀ (call : SearchInput → Except Err ByteStream) (inp : SearchInput)
        (body : ByteStream) (e : Err),
        (∀ x, call x = Except.ok body) →
        (decSearchOutput body.content).2 = some e →
        (Files.Search call inp).err = some e ∧
        (Files.Search call inp).out = (decSearchOutput body.content).1)
  ∧ (∀ (dl : UploadInput → Option ByteStream → Except Err ByteStream)
        (inp : UploadInput) (body : ByteStream) (e : Err),
        (∀ x b, dl x b = Except.ok body) →
        (decUploadOutput body.content).2 = some e →
        (Files.Upload dl inp).err = some e ∧
        (Files.Upload dl inp).out = (decUploadOutput body.content).1) := by
  refine ⟨?_, ?_, ?_, ?_, ?_, ?_, ?_, ?_, ?_⟩ <;>
    intro call inp body e h hd <;>
    simp [Files.GetMetadata, Files.CreateFolder, Files.Delete, Files.Copy,
      Files.Move, Files.Restore, Files.ListFolder, Files.Search,
      Files.Upload, h, hd]

/-- C4 amended, witnessed at a concrete input: a body that is not valid
JSON makes `GetMetadata` surface the decode failure. -/
theorem c4_amended_witness :
    (Files.GetMetadata (fun _ => Except.ok ⟨3, none⟩) ⟨"/a", false⟩).err
        = some "invalid character in JSON input"
  ∧ (Files.GetMetadata (fun _ => Except.ok ⟨3, none⟩) ⟨"/a", false⟩).out
        = (decGetMetadataOutput none).1 :=
  c4_amended_decode_error_surfaced.1 _ ⟨"/a", false⟩ ⟨3, none⟩
    "invalid character in JSON input" (fun _ => rfl) rfl

/-- C5: for every JSON-decoded operation, when the transport call
succeeds the response body stream is closed before the operation
returns (`defer body.Close()`), whatever the body contains — so on the
decode-success and the decode-error path alike. -/
theorem c5_body_closed_before_return
    : (∀ (call : GetMetadataInput → Except Err ByteStream) (inp : GetMetadataInput)
        (body : ByteStream), (∀ x, call x = Except.ok body) →
        (Files.GetMetadata call inp).closed = [body.id])
  ∧ (∀ (call : CreateFolderInput → Except Err ByteStream) (inp : CreateFolderInput)
        (body : ByteStream), (∀ x, call x = Except.ok body) →
        (Files.CreateFolder call inp).closed = [body.id])
  ∧ (∀ (call : DeleteInput → Except Err ByteStream) (inp : DeleteInput)
        (body : ByteStream), (∀ x, call x = Except.ok body) →
        (Files.Delete call inp).closed = [body.id])
  ∧ (∀ (call : CopyInput → Except Err ByteStream) (inp : CopyInput)
        (body : ByteStream), (∀ x, call x = Except.ok body) →
        (Files.Copy call inp).closed = [body.id])
  ∧ (∀ (call : MoveInput → Except Err ByteStream) (inp : MoveInput)
        (body : ByteStream), (∀ x, call x = Except.ok body) →
        (Files.Move call inp).closed = [body.id])
  ∧ (∀ (call : RestoreInput → Except Err ByteStream) (inp : RestoreInput)
        (body : ByteStream), (∀ x, call x = Except.ok body) →
        (Files.Restore call inp).closed = [body.id])
  ∧ (∀ (call : ListFolderInput → Except Err ByteStream) (inp : ListFolderInput)
        (body : ByteStream), (∀ x, call x = Except.ok body) →
        (Files.ListFolder call inp).closed = [body.id])
  ∧ (∀ (call : SearchInput → Except Err ByteStream) (inp : SearchInput)
        (body : ByteStream), (∀ x, call x = Except.ok body) →
        (Files.Search call inp).closed = [body.id])
  ∧ (∀ (dl : UploadInput → Option ByteStream → Except Err ByteStream)
        (inp : UploadInput) (body : ByteStream), (∀ x b, dl x b = Except.ok body) →
        (Files.Upload dl inp).closed = [body.id]) := by
  refine ⟨?_, ?_, ?_, ?_, ?_, ?_, ?_, ?_, ?_⟩ <;>
    intro call inp body h <;>
    simp [Files.GetMetadata, Files.CreateFolder, Files.Delete, Files.Copy,
      Files.Move, Files.Restore, Files.ListFolder, Files.Search,
      Files.Upload, h]

/-- C5 witnessed at concrete inputs: on a successful transport call,
`GetMetadata` (decode error path: invalid body) and `Search` (decode
success path: null body) both close the body stream. -/
theorem c5_witness :
    (Files.GetMetadata (fun _ => Except.ok ⟨5, none⟩) ⟨"/a", false⟩).closed = [5]
  ∧ (Files.Search (fun _ => Except.ok ⟨6, some Json.null⟩)
        ⟨"/", "q", 0, 0, "filename"⟩).closed = [6] :=
  ⟨c5_body_closed_before_return.1 _ ⟨"/a", false⟩ ⟨5, none⟩ (fun _ => rfl),
   c5_body_closed_before_return.2.2.2.2.2.2.2.1 _ ⟨"/", "q", 0, 0, "filename"⟩
     ⟨6, some Json.null⟩ (fun _ => rfl)⟩

/-- C6: when the transport download primitive succeeds, `Download`
returns the transport's stream itself to the caller inside
`DownloadOutput` — unopened by the facade (the model records no read
and no close on it: `closed = []`), with no error; ownership passes to
the caller. -/
theorem c6_download_transfers_stream_ownership
    (dl : DownloadInput → Option ByteStream → Except Err ByteStream)
    (inp : DownloadInput) (body : ByteStream)
    (h : ∀ x b, dl x b = Except.ok body) :
    (Files.Download dl inp).out = some ⟨body⟩ ∧
    (Files.Download dl inp).err = none ∧
    (Files.Download dl inp).closed = [] := by
  simp [Files.Download, h]

/-- C6 witnessed at a concrete input: the returned `Body` is the very
stream the transport produced, unclosed. -/
theorem c6_witness :
    (Files.Download (fun _ _ => Except.ok ⟨9, none⟩) ⟨"/f"⟩).out = some ⟨⟨9, none⟩⟩
  ∧ (Files.Download (fun _ _ => Except.ok ⟨9, none⟩) ⟨"/f"⟩).err = none
  ∧ (Files.Download (fun _ _ => Except.ok ⟨9, none⟩) ⟨"/f"⟩).closed = [] :=
  c6_download_transfers_stream_ownership _ ⟨"/f"⟩ ⟨9, none⟩ (fun _ _ => rfl)

/-- C7: `Upload` issues exactly one request, through the streaming
transport primitive, to the fixed endpoint "/files/upload", carrying
the input record as request metadata and the caller-supplied reader as
the raw request body; `Download` issues exactly one request to
"/files/download" with the input record as metadata and no request
body, and on success returns the transport's raw response body
stream. -/
theorem c7_upload_download_use_streaming_primitive
    : (∀ (dl : UploadInput → Option ByteStream → Except Err ByteStream)
        (inp : UploadInput),
        (Files.Upload dl inp).requests = [⟨"/files/upload", inp, inp.Reader⟩])
  ∧ (∀ (dl : DownloadInput → Option ByteStream → Except Err ByteStream)
        (inp : DownloadInput),
        (Files.Download dl inp).requests = [⟨"/files/download", inp, none⟩])
  ∧ (∀ (dl : DownloadInput → Option ByteStream → Except Err ByteStream)
        (inp : DownloadInput) (body : ByteStream),
        (∀ x b, dl x b = Except.ok body) →
        (Files.Download dl inp).out = some ⟨body⟩) := by
  refine ⟨?_, ?_, ?_⟩
  · intro dl inp
    cases hc : dl inp inp.Reader <;> simp [Files.Upload, hc]
  · intro dl inp
    cases hc : dl inp none <;> simp [Files.Download, hc]
  · intro dl inp body h
    simp [Files.Download, h]

/-- C7 witnessed at a concrete input: the single download-primitive
request of an `Upload` carries the reader stream as body, and a
successful `Download` returns the raw response stream. -/
theorem c7_witness :
    (Files.Upload (fun _ _ => Except.error "e")
        ⟨"/u", "add", true, false, GoTime.zero, some ⟨11, none⟩⟩).requests
      = [⟨"/files/upload", ⟨"/u", "add", true, false, GoTime.zero, some ⟨11, none⟩⟩,
          some ⟨11, none⟩⟩]
  ∧ (Files.Download (fun _ _ => Except.ok ⟨12, none⟩) ⟨"/d"⟩).out = some ⟨⟨12, none⟩⟩ :=
  ⟨c7_upload_download_use_streaming_primitive.1 _ _,
   c7_upload_download_use_streaming_primitive.2.2 _ ⟨"/d"⟩ ⟨12, none⟩ (fun _ _ => rfl)⟩

/-- C8 counterexample: `ListFolderOutput.Entries` carries no json tag,
so its JSON mapping key is the Go field name "Entries" — not a
snake_case key and not the remote contract's "entries". -/
theorem c8_counterexample_entries_field_key_not_snake_case :
    listFolderOutputJsonKeys.lookup "Entries" = some "Entries"
  ∧ isSnakeCaseKey "Entries" = false
  ∧ ("Entries" : String) ≠ "entries" := by
  refine ⟨rfl, rfl, ?_⟩
  decide

/-- C8 amended: every field of every input and output record except
`ListFolderOutput.Entries` carries the exact snake_case wire key of the
remote API (e.g. `.tag`, `path_lower`, `client_modified`, `has_more`,
`match_type`); `Entries` has no tag, so its JSON key is the field name
"Entries", and deserialization still accepts the wire key "entries"
only through Go's case-insensitive key matching. -/
theorem c8_amended_keys_snake_case_except_entries :
    (allJsonKeys.all fun rec => rec.2.all fun fk =>
        isSnakeCaseKey fk.2 || (fk.1 == "Entries" && fk.2 == "Entries")) = true
  ∧ metadataJsonKeys.lookup "Tag" = some ".tag"
  ∧ metadataJsonKeys.lookup "PathLower" = some "path_lower"
  ∧ metadataJsonKeys.lookup "ClientModified" = some "client_modified"
  ∧ listFolderOutputJsonKeys.lookup "HasMore" = some "has_more"
  ∧ searchMatchJsonKeys.lookup "MatchType" = some "match_type"
  ∧ decListFolderOutput (some (Json.obj [("entries", Json.arr [Json.null])]))
      = (some ⟨"", false, [none]⟩, none) :=
  ⟨rfl, rfl, rfl, rfl, rfl, rfl, rfl⟩

/-- C9: for every operation, when the transport primitive fails, the
returned output pointer is nil — never a non-nil empty output alongside
the error; in particular `Download` returns no stream on the error path
and closes nothing, so the caller has nothing to release. -/
theorem c9_transport_error_yields_nil_output
    : (∀ (call : GetMetadataInput → Except Err ByteStream) (inp : GetMetadataInput)
        (e : Err), (∀ x, call x = Except.error e) →
        (Files.GetMetadata call inp).out = none)
  ∧ (∀ (call : CreateFolderInput → Except Err ByteStream) (inp : CreateFolderInput)
        (e : Err), (∀ x, call x = Except.error e) →
        (Files.CreateFolder call inp).out = none)
  ∧ (∀ (call : DeleteInput → Except Err ByteStream) (inp : DeleteInput)
        (e : Err), (∀ x, call x = Except.error e) →
        (Files.Delete call inp).out = none)
  ∧ (∀ (call : CopyInput → Except Err ByteStream) (inp : CopyInput)
        (e : Err), (∀ x, call x = Except.error e) →
        (Files.Copy call inp).out = none)
  ∧ (∀ (call : MoveInput → Except Err ByteStream) (inp : MoveInput)
        (e : Err), (∀ x, call x = Except.error e) →
        (Files.Move call inp).out = none)
  ∧ (∀ (call : RestoreInput → Except Err ByteStream) (inp : RestoreInput)
        (e : Err), (∀ x, call x = Except.error e) →
        (Files.Restore call inp).out = none)
  ∧ (∀ (call : ListFolderInput → Except Err ByteStream) (inp : ListFolderInput)
        (e : Err), (∀ x, call x = Except.error e) →
        (Files.ListFolder call inp).out = none)
  ∧ (∀ (call : SearchInput → Except Err ByteStream) (inp : SearchInput)
        (e : Err), (∀ x, call x = Except.error e) →
        (Files.Search call inp).out = none)
  ∧ (∀ (dl : UploadInput → Option ByteStream → Except Err ByteStream)
        (inp : UploadInput) (e : Err), (∀ x b, dl x b = Except.error e) →
        (Files.Upload dl inp).out = none)
  ∧ (∀ (dl : DownloadInput → Option ByteStream → Except Err ByteStream)
        (inp : DownloadInput) (e : Err), (∀ x b, dl x b = Except.error e) →
        (Files.Download dl inp).out = none ∧
        (Files.Download dl inp).closed = []) := by
  refine ⟨?_, ?_, ?_, ?_, ?_, ?_, ?_, ?_, ?_, ?_⟩ <;>
    intro call inp e h <;>
    simp [Files.GetMetadata, Files.CreateFolder, Files.Delete, Files.Copy,
      Files.Move, Files.Restore, Files.ListFolder, Files.Search,
      Files.Upload, Files.Download, h]

/-- C9 witnessed at concrete inputs: on a failing transport,
`ListFolder` returns a nil output and `Download` returns no stream and
closes nothing. -/
theorem c9_witness :
    (Files.ListFolder (fun _ => Except.error "dns failure")
        ⟨"/", false, false, false⟩).out = none
  ∧ (Files.Download (fun _ _ => Except.error "dns failure") ⟨"/g"⟩).out = none
  ∧ (Files.Download (fun _ _ => Except.error "dns failure") ⟨"/g"⟩).closed = [] :=
  ⟨c9_transport_error_yields_nil_output.2.2.2.2.2.2.1 _ ⟨"/", false, false, false⟩
      "dns failure" (fun _ => rfl),
   (c9_transport_error_yields_nil_output.2.2.2.2.2.2.2.2.2 _ ⟨"/g"⟩
      "dns failure" (fun _ _ => rfl)).1,
   (c9_transport_error_yields_nil_output.2.2.2.2.2.2.2.2.2 _ ⟨"/g"⟩
      "dns failure" (fun _ _ => rfl)).2⟩

/-- C10: evaluating the serialization of an `UploadInput` whose
`ClientModified` is the zero time: the JSON request metadata contains
the key "client_modified" anyway (serialized as the zero time's RFC
3339 rendering), because Go's `omitempty` never treats a struct such as
`time.Time` as empty — contradicting the intent documented by the
`client_modified,omitempty` tag.  The other keys are exactly `path`,
`mode`, `autorename`, `mute`, and `Reader` (tagged `json:"-"`) is never
serialized. -/
theorem c10_client_modified_serialized_even_when_zero :
    jsonObjKeys (marshalUploadInput ⟨"/a.txt", "add", false, false, GoTime.zero, none⟩)
      = ["path", "mode", "autorename", "mute", "client_modified"]
  ∧ marshalUploadInput ⟨"/a.txt", "add", false, false, GoTime.zero, none⟩
      = Json.obj
          [("path", Json.str "/a.txt"), ("mode", Json.str "add"),
           ("autorename", Json.bool false), ("mute", Json.bool false),
           ("client_modified", Json.str "0001-01-01T00:00:00Z")] :=
  ⟨rfl, rfl⟩
